import Mathlib

/-!
Verification of the AWT data-averaging pipeline
(`generate_averaged_data.js`): a shallow embedding of the pure core of the
script — hemisphere filtering, grouping by tag, rolling 7-day window
averaging, rounding to six decimal places, final time sort, and output
assembly with metadata — together with theorems settling the stated
properties of that pipeline.

Modelling conventions:
- JavaScript numbers are modelled as exact rationals (`ℚ`); timestamps are
  integers (Unix epoch seconds, as in the data contract).
- `Number(x.toFixed(6))` is modelled as rounding to the nearest multiple of
  `10⁻⁶`; the ECMAScript `toFixed` picks the larger candidate on a tie,
  which is exactly Mathlib `round` (`⌊x + 1/2⌋`).
- `Array.prototype.sort` with comparator `(a, b) => a.timestamp - b.timestamp`
  is a stable sort by non-decreasing timestamp.  All stable sorts by the
  same key agree extensionally, so it is embedded as `List.insertionSort`
  by that key (structural, hence executable).
- The JavaScript object `dataByTag` keyed by numeric tag ids enumerates its
  keys in ascending numeric order (integer-like keys of a JS object are
  iterated in ascending order), and each bucket holds the fixes of that tag
  in input order; this is embedded as `tagKeys` / `groupOf` below.
- File and network I/O (`fetchRawData`, the `fs.writeFileSync` call and the
  wall-clock `generated_at` field) are external effects outside the pure
  core and are not modelled; `saveAveragedData` below is the pure value
  assembly performed by the function of the same name.
-/

/-- One raw GPS observation as consumed by the pipeline (a parsed record of
the upstream JSON feed): tag id, Unix-epoch-seconds timestamp, and
coordinates in degrees. -/
structure RawFix where
  tagId : Nat
  timestamp : Int
  latitude : ℚ
  longitude : ℚ

instance : Inhabited RawFix := ⟨⟨0, 0, 0, 0⟩⟩

/-- Calendar date range of a window, as the code builds it from
`new Date(ts * 1000).toISOString().split('T')[0]`. -/
structure DateRange where
  start : String
  «end» : String

/-- One averaged output record, with the fields produced at lines 96-107 of
`generate_averaged_data.js`. -/
structure AveragedFix where
  tagId : Nat
  timestamp : Int
  latitude : ℚ
  longitude : ℚ
  daysUsed : Nat
  originalPoints : Nat
  dateRange : DateRange

instance : Inhabited AveragedFix := ⟨⟨0, 0, 0, 0, 0, 0, ⟨"", ""⟩⟩⟩

/-- Comparator used on raw fixes: `(a, b) => a.timestamp - b.timestamp`,
i.e. non-decreasing timestamp. -/
def tsLE (a b : RawFix) : Prop := a.timestamp ≤ b.timestamp

instance : DecidableRel tsLE := fun a b => Int.decLe a.timestamp b.timestamp

instance : IsTotal RawFix tsLE := ⟨fun a b => Int.le_total a.timestamp b.timestamp⟩

instance : IsTrans RawFix tsLE := ⟨fun _ _ _ h1 h2 => le_trans h1 h2⟩

/-- Comparator used on averaged records for the final sort at line 159:
non-decreasing timestamp. -/
def outLE (a b : AveragedFix) : Prop := a.timestamp ≤ b.timestamp

instance : DecidableRel outLE := fun a b => Int.decLe a.timestamp b.timestamp

instance : IsTotal AveragedFix outLE := ⟨fun a b => Int.le_total a.timestamp b.timestamp⟩

instance : IsTrans AveragedFix outLE := ⟨fun _ _ _ h1 h2 => le_trans h1 h2⟩

/-- Embedding of `Number(x.toFixed(6))`: round to the nearest multiple of
one millionth, a tie going to the larger value (the ECMAScript `toFixed`
rule, which is Mathlib `round`). -/
def toFixed6 (x : ℚ) : ℚ := ((round (x * 1000000) : ℤ) : ℚ) / 1000000

/-- Civil (proleptic Gregorian) date of a day count relative to 1970-01-01,
as used by `Date.prototype.toISOString` for the UTC date part.  This is the
standard era-based conversion; it returns `(year, month, day)`. -/
def civilFromDays (z0 : Int) : Int × Nat × Nat :=
  let z : Int := z0 + 719468
  let era : Int := z.fdiv 146097
  let doe : Nat := (z - era * 146097).toNat
  let yoe : Nat := (doe - doe / 1460 + doe / 36524 - doe / 146096) / 365
  let doy : Nat := doe - (365 * yoe + yoe / 4 - yoe / 100)
  let mp : Nat := (5 * doy + 2) / 153
  let d : Nat := doy - (153 * mp + 2) / 5 + 1
  let m : Nat := if mp < 10 then mp + 3 else mp - 9
  let y : Int := (yoe : Int) + era * 400
  (if m ≤ 2 then y + 1 else y, m, d)

/-- Left-pad the decimal representation of a natural number with zeros. -/
def padNat (w : Nat) (n : Nat) : String :=
  let s := toString n
  String.mk (List.replicate (w - s.length) '0') ++ s

/-- Year field of an ISO-8601 UTC date string: four digits for years 0-9999,
otherwise the expanded six-digit signed form used by `toISOString`. -/
def yearString (y : Int) : String :=
  if y < 0 then "-" ++ padNat 6 y.natAbs
  else if y ≤ 9999 then padNat 4 y.toNat
  else "+" ++ padNat 6 y.toNat

/-- Embedding of `new Date(ts * 1000).toISOString().split('T')[0]`: the UTC
calendar date (YYYY-MM-DD) of a Unix-epoch-seconds timestamp. -/
def utcDateString (ts : Int) : String :=
  let days : Int := (ts * 1000).fdiv 86400000
  let c := civilFromDays days
  yearString c.1 ++ "-" ++ padNat 2 c.2.1 ++ "-" ++ padNat 2 c.2.2

/-- One iteration of the loop body at lines 84-108 of
`generate_averaged_data.js`: the averaged record for the window of the
seven fixes at indices `i-6 .. i` of the sorted timeline.  `slice(a, b)` is
`(drop a).take (b - a)`, `reduce((sum, p) => sum + p.x, 0)` is a left fold
from 0, and the `i`-th element is read with `getD` (the loop only ever uses
indices below the length, so the default is never reached). -/
def windowRecord (sortedData : List RawFix) (i : Nat) : AveragedFix :=
  let windowStart := i - 6
  let windowData := (sortedData.drop windowStart).take (i + 1 - windowStart)
  let avgLat := windowData.foldl (fun sum point => sum + point.latitude) 0 / (windowData.length : ℚ)
  let avgLng := windowData.foldl (fun sum point => sum + point.longitude) 0 / (windowData.length : ℚ)
  { tagId := (sortedData.getD i default).tagId
    timestamp := (sortedData.getD i default).timestamp
    latitude := toFixed6 avgLat
    longitude := toFixed6 avgLng
    daysUsed := windowData.length
    originalPoints := windowData.length
    dateRange :=
      { start := utcDateString (sortedData.getD windowStart default).timestamp
        «end» := utcDateString (sortedData.getD i default).timestamp } }

/-- Embedding of `calculateRollingAverages` (lines 74-111): guard empty
input, sort by timestamp (stable), then emit one record per loop index
`i = 6 .. length - 1`. -/
def calculateRollingAverages (animalData : List RawFix) : List AveragedFix :=
  if animalData.length = 0 then []
  else
    let sortedData := animalData.insertionSort tsLE
    (List.range' 6 (sortedData.length - 6)).map (fun i => windowRecord sortedData i)

/-- Embedding of the filter at line 121:
`rawData.filter(point => point.latitude < 0)`. -/
def filterFixes (rawData : List RawFix) : List RawFix :=
  rawData.filter (fun point => decide (point.latitude < 0))

/-- Bucket of the `dataByTag` object for one tag id: the fixes with that
exact tag id, in input order (lines 130-136). -/
def groupOf (l : List RawFix) (t : Nat) : List RawFix :=
  l.filter (fun point => decide (point.tagId = t))

/-- The key sequence `Object.keys(dataByTag)`: the distinct tag ids of the
(filtered) data.  Integer-like keys of a JavaScript object are enumerated
in ascending numeric order. -/
def tagKeys (l : List RawFix) : List Nat :=
  ((l.map (fun point => point.tagId)).dedup).insertionSort (fun a b => a ≤ b)

/-- Embedding of `processData` (lines 116-167): hemisphere filter, group by
tag id, rolling averages per tag concatenated, final stable sort by
timestamp.  The console logging is an external effect and is not modelled. -/
def processData (rawData : List RawFix) : List AveragedFix :=
  let filteredData := filterFixes rawData
  let allAveragedData :=
    (tagKeys filteredData).flatMap (fun t => calculateRollingAverages (groupOf filteredData t))
  allAveragedData.insertionSort outLE

/-- Metadata block of the output document (lines 176-183); `generated_at`
is wall-clock time, an external effect kept out of the pure embedding. -/
structure Metadata where
  description : String
  rolling_window_days : Nat
  total_animals : Nat
  total_points : Nat
  privacy_note : String

/-- The output document: metadata plus the averaged data. -/
structure OutputData where
  metadata : Metadata
  data : List AveragedFix

/-- Pure value assembly performed by `saveAveragedData` (lines 175-185):
`new Set(xs).size` is the number of distinct elements, i.e. the length of
`dedup`.  The subsequent file write is I/O and is not modelled. -/
def saveAveragedData (averagedData : List AveragedFix) : OutputData :=
  { metadata :=
      { description := "Rolling 7-day averaged locations for privacy protection"
        rolling_window_days := 7
        total_animals := ((averagedData.map (fun d => d.tagId)).dedup).length
        total_points := averagedData.length
        privacy_note := "Individual GPS points are averaged over 7-day rolling windows to protect animal privacy and prevent poaching" }
    data := averagedData }

/-- A parsed JSON record whose fields may be absent, for stating how the
pipeline treats malformed input: `none` models a missing field
(`undefined`). -/
structure RawRecord where
  tagId : Option Nat
  timestamp : Option Int
  latitude : Option ℚ
  longitude : Option ℚ

/-- JavaScript truth value of `point.latitude < 0` when the field may be
absent: comparing `undefined` with a number yields `false`, so a record
with no latitude fails the test. -/
def jsLtZero : Option ℚ → Bool
  | some v => decide (v < 0)
  | none => false

/-- The filter at line 121 applied to records with possibly missing fields:
`rawData.filter(point => point.latitude < 0)` under JavaScript comparison
semantics. -/
def jsFilterFixes (rawData : List RawRecord) : List RawRecord :=
  rawData.filter (fun point => jsLtZero point.latitude)

/-- Read a surviving record as a total fix.  Every record that passes the
filter has a present latitude; the statements below only ever apply the
remaining stages to records with all fields present, so the defaults are
never reached there. -/
def toFix (p : RawRecord) : RawFix :=
  { tagId := p.tagId.getD 0
    timestamp := p.timestamp.getD 0
    latitude := p.latitude.getD 0
    longitude := p.longitude.getD 0 }

/-- The `processData` pipeline on parsed records with possibly missing
fields: the only stage that inspects validity is the latitude filter, and
the code contains no validation or throw for missing fields — the stages
after the filter run unchanged on whatever survives. -/
def jsProcessData (rawData : List RawRecord) : List AveragedFix :=
  let filteredData := (jsFilterFixes rawData).map toFix
  let allAveragedData :=
    (tagKeys filteredData).flatMap (fun t => calculateRollingAverages (groupOf filteredData t))
  allAveragedData.insertionSort outLE

/-! Helper lemmas shared across the development. -/

/-- Length of the rolling-average output: the loop runs for
`i = 6 .. length - 1`, so it emits `length - 6` records (truncated
subtraction). -/
theorem cRA_length (l : List RawFix) :
    (calculateRollingAverages l).length = l.length - 6 := by
  rw [calculateRollingAverages]
  split
  · simp [*]
  · simp

/-- An in-range `getD` read is a member of the list. -/
theorem getD_mem_of_lt {α : Type} {l : List α} {n : Nat} {d : α}
    (h : n < l.length) : l.getD n d ∈ l := by
  rw [List.getD_eq_getElem?_getD, List.getElem?_eq_getElem h]
  exact List.getElem_mem h

/-- A sample timeline for witnesses: one tag, strictly increasing
timestamps, constant southern latitude. -/
def sampleTimeline (n : Nat) : List RawFix :=
  (List.range n).map (fun k => ⟨1, (k : Int), -5, 0⟩)

/-- C1: the rolling aggregator emits exactly `n - 6` records for a timeline
of length `n ≥ 7` and no records for `n < 7`; no partial window is ever
emitted. -/
theorem claim1_window_count (l : List RawFix) :
    (7 ≤ l.length → (calculateRollingAverages l).length = l.length - 6) ∧
    (l.length < 7 → (calculateRollingAverages l).length = 0) :=
  ⟨fun _ => cRA_length l, fun h7 => by rw [cRA_length]; omega⟩

/-- Witness for C1 at timelines of length 8 and of length 3. -/
theorem claim1_window_count_witness :
    (7 ≤ (sampleTimeline 8).length ∧
      (calculateRollingAverages (sampleTimeline 8)).length = (sampleTimeline 8).length - 6) ∧
    ((sampleTimeline 3).length < 7 ∧
      (calculateRollingAverages (sampleTimeline 3)).length = 0) :=
  ⟨⟨by decide, (claim1_window_count (sampleTimeline 8)).1 (by decide)⟩,
   ⟨by decide, (claim1_window_count (sampleTimeline 3)).2 (by decide)⟩⟩

/-- C4: the filter keeps a record exactly when its latitude is strictly
negative, and filtering an already filtered sequence changes nothing. -/
theorem claim4_filter_exact_and_idempotent (raw : List RawFix) :
    (∀ p, p ∈ filterFixes raw ↔ (p ∈ raw ∧ p.latitude < 0)) ∧
    filterFixes (filterFixes raw) = filterFixes raw := by
  constructor
  · intro p
    simp [filterFixes, List.mem_filter]
  · simp [filterFixes, List.filter_filter]

/-- C5: every emitted record uses a window of exactly 7 fixes, so
`daysUsed` and `originalPoints` both equal 7. -/
theorem claim5_window_always_seven (l : List RawFix) (r : AveragedFix)
    (hr : r ∈ calculateRollingAverages l) :
    r.daysUsed = 7 ∧ r.originalPoints = 7 := by
  rw [calculateRollingAverages] at hr
  split at hr
  · simp at hr
  · simp only [List.mem_map] at hr
    obtain ⟨i, hi, rfl⟩ := hr
    rw [List.mem_range'] at hi
    obtain ⟨k, hk, rfl⟩ := hi
    rw [List.length_insertionSort] at hk
    constructor <;>
      simp [windowRecord, List.length_take, List.length_drop,
        List.length_insertionSort] <;> omega

/-- Witness for C5: the single record of a 7-fix timeline. -/
theorem claim5_window_always_seven_witness :
    ((calculateRollingAverages (sampleTimeline 7)).getD 0 default
        ∈ calculateRollingAverages (sampleTimeline 7)) ∧
    (((calculateRollingAverages (sampleTimeline 7)).getD 0 default).daysUsed = 7 ∧
      ((calculateRollingAverages (sampleTimeline 7)).getD 0 default).originalPoints = 7) :=
  have hm : (calculateRollingAverages (sampleTimeline 7)).getD 0 default
      ∈ calculateRollingAverages (sampleTimeline 7) :=
    getD_mem_of_lt (by rw [cRA_length]; decide)
  ⟨hm, claim5_window_always_seven (sampleTimeline 7) _ hm⟩

/-- C7: the assembled output is sorted non-decreasingly by timestamp, and
re-sorting it is the identity. -/
theorem claim7_output_sorted_idempotent (raw : List RawFix) :
    List.Sorted (fun a b : AveragedFix => a.timestamp ≤ b.timestamp) (processData raw) ∧
    (processData raw).insertionSort outLE = processData raw := by
  have hs : List.Sorted outLE (processData raw) := by
    rw [processData]
    exact List.sorted_insertionSort outLE _
  exact ⟨hs, hs.insertionSort_eq⟩

/-- C8: result assembly is a total function whose metadata is correct:
`total_points` is the output length, `total_animals` is the number of
distinct tag ids appearing in the output, and the empty run is well formed
with zero points. -/
theorem claim8_metadata_correct (d : List AveragedFix) :
    (saveAveragedData d).metadata.total_points = (saveAveragedData d).data.length ∧
    (saveAveragedData d).metadata.total_animals
      = ((saveAveragedData d).data.map (fun r => r.tagId)).toFinset.card ∧
    (saveAveragedData []).metadata.total_points = 0 := by
  refine ⟨rfl, ?_, rfl⟩
  simp [saveAveragedData, List.card_toFinset]

/-- The record at output index `j` is the window record anchored at sorted
index `6 + j`. -/
theorem cRA_getD (l : List RawFix) (j : Nat)
    (h : j < (calculateRollingAverages l).length) :
    (calculateRollingAverages l).getD j default
      = windowRecord (l.insertionSort tsLE) (6 + j) := by
  rw [cRA_length] at h
  rw [calculateRollingAverages, if_neg (by omega)]
  rw [List.getD_eq_getElem?_getD, List.getElem?_map,
    List.getElem?_range' 6 1 (by rw [List.length_insertionSort]; omega)]
  simp

/-- C9: each output record carries the tag id and timestamp of the last fix
of its window, and its date range is built from the UTC calendar dates of
the first and last fix timestamps of the window. -/
theorem claim9_anchor_and_date_range (l : List RawFix) (j : Nat)
    (h : j < (calculateRollingAverages l).length) :
    ((calculateRollingAverages l).getD j default).tagId
        = (((l.insertionSort tsLE)).getD (j + 6) default).tagId ∧
    ((calculateRollingAverages l).getD j default).timestamp
        = (((l.insertionSort tsLE)).getD (j + 6) default).timestamp ∧
    ((calculateRollingAverages l).getD j default).dateRange.start
        = utcDateString (((l.insertionSort tsLE)).getD j default).timestamp ∧
    ((calculateRollingAverages l).getD j default).dateRange.«end»
        = utcDateString (((l.insertionSort tsLE)).getD (j + 6) default).timestamp := by
  rw [cRA_getD l j h]
  refine ⟨?_, ?_, ?_, ?_⟩ <;>
    simp [windowRecord, Nat.add_sub_cancel_left, Nat.add_comm]

/-- Witness for C9 on a timeline of 9 fixes at output index 0. -/
theorem claim9_anchor_and_date_range_witness :
    0 < (calculateRollingAverages (sampleTimeline 9)).length ∧
    (((calculateRollingAverages (sampleTimeline 9)).getD 0 default).tagId
        = ((((sampleTimeline 9).insertionSort tsLE)).getD 6 default).tagId ∧
    ((calculateRollingAverages (sampleTimeline 9)).getD 0 default).timestamp
        = ((((sampleTimeline 9).insertionSort tsLE)).getD 6 default).timestamp ∧
    ((calculateRollingAverages (sampleTimeline 9)).getD 0 default).dateRange.start
        = utcDateString ((((sampleTimeline 9).insertionSort tsLE)).getD 0 default).timestamp ∧
    ((calculateRollingAverages (sampleTimeline 9)).getD 0 default).dateRange.«end»
        = utcDateString ((((sampleTimeline 9).insertionSort tsLE)).getD 6 default).timestamp) :=
  ⟨by rw [cRA_length]; decide,
   claim9_anchor_and_date_range (sampleTimeline 9) 0 (by rw [cRA_length]; decide)⟩

/-- C3: for entity 42 with 8 fixes at strictly increasing timestamps and
latitudes [-10,-10,-10,-10,-10,-10,-10,-20], the aggregator emits exactly
two records: mean latitude -10 anchored at t6, then mean latitude
-11.428571 (six decimal places) anchored at t7. -/
theorem claim3_end_to_end_scenario (t0 t1 t2 t3 t4 t5 t6 t7 : Int)
    (h01 : t0 < t1) (h12 : t1 < t2) (h23 : t2 < t3) (h34 : t3 < t4)
    (h45 : t4 < t5) (h56 : t5 < t6) (h67 : t6 < t7) :
    (calculateRollingAverages
        [⟨42, t0, -10, 0⟩, ⟨42, t1, -10, 0⟩, ⟨42, t2, -10, 0⟩, ⟨42, t3, -10, 0⟩,
         ⟨42, t4, -10, 0⟩, ⟨42, t5, -10, 0⟩, ⟨42, t6, -10, 0⟩, ⟨42, t7, -20, 0⟩]).length = 2 ∧
    ((calculateRollingAverages
        [⟨42, t0, -10, 0⟩, ⟨42, t1, -10, 0⟩, ⟨42, t2, -10, 0⟩, ⟨42, t3, -10, 0⟩,
         ⟨42, t4, -10, 0⟩, ⟨42, t5, -10, 0⟩, ⟨42, t6, -10, 0⟩, ⟨42, t7, -20, 0⟩]).getD 0 default).latitude = -10 ∧
    ((calculateRollingAverages
        [⟨42, t0, -10, 0⟩, ⟨42, t1, -10, 0⟩, ⟨42, t2, -10, 0⟩, ⟨42, t3, -10, 0⟩,
         ⟨42, t4, -10, 0⟩, ⟨42, t5, -10, 0⟩, ⟨42, t6, -10, 0⟩, ⟨42, t7, -20, 0⟩]).getD 0 default).timestamp = t6 ∧
    ((calculateRollingAverages
        [⟨42, t0, -10, 0⟩, ⟨42, t1, -10, 0⟩, ⟨42, t2, -10, 0⟩, ⟨42, t3, -10, 0⟩,
         ⟨42, t4, -10, 0⟩, ⟨42, t5, -10, 0⟩, ⟨42, t6, -10, 0⟩, ⟨42, t7, -20, 0⟩]).getD 1 default).latitude = -11428571 / 1000000 ∧
    ((calculateRollingAverages
        [⟨42, t0, -10, 0⟩, ⟨42, t1, -10, 0⟩, ⟨42, t2, -10, 0⟩, ⟨42, t3, -10, 0⟩,
         ⟨42, t4, -10, 0⟩, ⟨42, t5, -10, 0⟩, ⟨42, t6, -10, 0⟩, ⟨42, t7, -20, 0⟩]).getD 1 default).timestamp = t7 := by
  have hsorted : List.Sorted tsLE
      [⟨42, t0, -10, 0⟩, ⟨42, t1, -10, 0⟩, ⟨42, t2, -10, 0⟩, ⟨42, t3, -10, 0⟩,
       ⟨42, t4, -10, 0⟩, ⟨42, t5, -10, 0⟩, ⟨42, t6, -10, 0⟩, ⟨42, t7, -20, 0⟩] := by
    simp [List.Sorted, List.pairwise_cons, List.forall_mem_cons, tsLE]
    omega
  have hsort_eq := hsorted.insertionSort_eq
  have hlen : (calculateRollingAverages
      [⟨42, t0, -10, 0⟩, ⟨42, t1, -10, 0⟩, ⟨42, t2, -10, 0⟩, ⟨42, t3, -10, 0⟩,
       ⟨42, t4, -10, 0⟩, ⟨42, t5, -10, 0⟩, ⟨42, t6, -10, 0⟩, ⟨42, t7, -20, 0⟩]).length = 2 := by
    rw [cRA_length]
    simp
  refine ⟨hlen, ?_, ?_, ?_, ?_⟩
  · rw [cRA_getD _ _ (by rw [hlen]; omega), hsort_eq]
    simp [windowRecord, toFixed6]
    norm_num [round_eq]
  · rw [cRA_getD _ _ (by rw [hlen]; omega), hsort_eq]
    simp [windowRecord]
  · rw [cRA_getD _ _ (by rw [hlen]; omega), hsort_eq]
    simp [windowRecord, toFixed6]
    norm_num [round_eq]
  · rw [cRA_getD _ _ (by rw [hlen]; omega), hsort_eq]
    simp [windowRecord]

/-- Witness for C3 at consecutive-day timestamps 0, 86400, ..., 604800. -/
theorem claim3_end_to_end_scenario_witness :
    ((0:Int) < 86400 ∧ (86400:Int) < 172800 ∧ (172800:Int) < 259200 ∧
      (259200:Int) < 345600 ∧ (345600:Int) < 432000 ∧ (432000:Int) < 518400 ∧
      (518400:Int) < 604800) ∧
    ((calculateRollingAverages
        [⟨42, 0, -10, 0⟩, ⟨42, 86400, -10, 0⟩, ⟨42, 172800, -10, 0⟩, ⟨42, 259200, -10, 0⟩,
         ⟨42, 345600, -10, 0⟩, ⟨42, 432000, -10, 0⟩, ⟨42, 518400, -10, 0⟩, ⟨42, 604800, -20, 0⟩]).length = 2 ∧
    ((calculateRollingAverages
        [⟨42, 0, -10, 0⟩, ⟨42, 86400, -10, 0⟩, ⟨42, 172800, -10, 0⟩, ⟨42, 259200, -10, 0⟩,
         ⟨42, 345600, -10, 0⟩, ⟨42, 432000, -10, 0⟩, ⟨42, 518400, -10, 0⟩, ⟨42, 604800, -20, 0⟩]).getD 0 default).latitude = -10 ∧
    ((calculateRollingAverages
        [⟨42, 0, -10, 0⟩, ⟨42, 86400, -10, 0⟩, ⟨42, 172800, -10, 0⟩, ⟨42, 259200, -10, 0⟩,
         ⟨42, 345600, -10, 0⟩, ⟨42, 432000, -10, 0⟩, ⟨42, 518400, -10, 0⟩, ⟨42, 604800, -20, 0⟩]).getD 0 default).timestamp = 518400 ∧
    ((calculateRollingAverages
        [⟨42, 0, -10, 0⟩, ⟨42, 86400, -10, 0⟩, ⟨42, 172800, -10, 0⟩, ⟨42, 259200, -10, 0⟩,
         ⟨42, 345600, -10, 0⟩, ⟨42, 432000, -10, 0⟩, ⟨42, 518400, -10, 0⟩, ⟨42, 604800, -20, 0⟩]).getD 1 default).latitude = -11428571 / 1000000 ∧
    ((calculateRollingAverages
        [⟨42, 0, -10, 0⟩, ⟨42, 86400, -10, 0⟩, ⟨42, 172800, -10, 0⟩, ⟨42, 259200, -10, 0⟩,
         ⟨42, 345600, -10, 0⟩, ⟨42, 432000, -10, 0⟩, ⟨42, 518400, -10, 0⟩, ⟨42, 604800, -20, 0⟩]).getD 1 default).timestamp = 604800) :=
  ⟨⟨by decide, by decide, by decide, by decide, by decide, by decide, by decide⟩,
   claim3_end_to_end_scenario 0 86400 172800 259200 345600 432000 518400 604800
     (by decide) (by decide) (by decide) (by decide) (by decide) (by decide) (by decide)⟩

/-- C6 (amended): grouping partitions the valid fixes by exact tag id
equality — a fix lies in the bucket of its own tag id and in no other, and
its tag id is among the iterated keys — and because the aggregator sorts
each group by timestamp before windowing, the output of a group whose
timestamps are pairwise distinct does not depend on the input order.  (With
tied timestamps the stable sort preserves input order, so the output can
depend on it; see the counterexample.) -/
theorem claim6_grouping_and_sorting (raw : List RawFix) (t : Nat) (p : RawFix) :
    (p ∈ groupOf (filterFixes raw) t ↔ (p ∈ filterFixes raw ∧ p.tagId = t)) ∧
    (p ∈ filterFixes raw → p.tagId ∈ tagKeys (filterFixes raw)) ∧
    (∀ l l' : List RawFix, l.Perm l' →
      l.Pairwise (fun a b => a.timestamp ≠ b.timestamp) →
      calculateRollingAverages l = calculateRollingAverages l') := by
  refine ⟨?_, ?_, ?_⟩
  · simp [groupOf, List.mem_filter]
  · intro hp
    simp only [tagKeys, List.mem_insertionSort, List.mem_dedup, List.mem_map]
    exact ⟨p, hp, rfl⟩
  · intro l l' hperm hne
    by_cases h0 : l.length = 0
    · have h0' : l'.length = 0 := by rw [← hperm.length_eq]; exact h0
      rw [calculateRollingAverages, calculateRollingAverages, if_pos h0, if_pos h0']
    · have h0' : ¬ l'.length = 0 := by rw [← hperm.length_eq]; exact h0
      have hne1 : (l.insertionSort tsLE).Pairwise (fun a b => a.timestamp ≠ b.timestamp) :=
        ((List.perm_insertionSort tsLE l).pairwise_iff (fun h => Ne.symm h)).mpr hne
      have hne' : l'.Pairwise (fun a b => a.timestamp ≠ b.timestamp) :=
        (hperm.pairwise_iff (fun h => Ne.symm h)).mp hne
      have hne2 : (l'.insertionSort tsLE).Pairwise (fun a b => a.timestamp ≠ b.timestamp) :=
        ((List.perm_insertionSort tsLE l').pairwise_iff (fun h => Ne.symm h)).mpr hne'
      have hlt1 : (l.insertionSort tsLE).Pairwise
          (fun a b : RawFix => a.timestamp < b.timestamp) :=
        List.Pairwise.imp (fun h => lt_of_le_of_ne h.1 h.2)
          (List.Pairwise.and (List.sorted_insertionSort tsLE l) hne1)
      have hlt2 : (l'.insertionSort tsLE).Pairwise
          (fun a b : RawFix => a.timestamp < b.timestamp) :=
        List.Pairwise.imp (fun h => lt_of_le_of_ne h.1 h.2)
          (List.Pairwise.and (List.sorted_insertionSort tsLE l') hne2)
      have hperm2 : (l.insertionSort tsLE).Perm (l'.insertionSort tsLE) :=
        (List.perm_insertionSort tsLE l).trans
          (hperm.trans (List.perm_insertionSort tsLE l').symm)
      haveI : IsAntisymm RawFix (fun a b : RawFix => a.timestamp < b.timestamp) :=
        ⟨fun _ _ h1 h2 => absurd h2 (lt_asymm h1)⟩
      have hsort_eq : l.insertionSort tsLE = l'.insertionSort tsLE :=
        List.eq_of_perm_of_sorted hperm2 hlt1 hlt2
      rw [calculateRollingAverages, calculateRollingAverages, if_neg h0, if_neg h0']
      rw [hsort_eq]

/-- Witness for C6 on a concrete filtered dataset and a distinct-timestamp
permutation pair. -/
theorem claim6_grouping_and_sorting_witness :
    ((⟨1, 0, -5, 0⟩ : RawFix) ∈ groupOf (filterFixes (sampleTimeline 3)) 1 ↔
      ((⟨1, 0, -5, 0⟩ : RawFix) ∈ filterFixes (sampleTimeline 3) ∧
        (⟨1, 0, -5, 0⟩ : RawFix).tagId = 1)) ∧
    ((⟨1, 0, -5, 0⟩ : RawFix) ∈ filterFixes (sampleTimeline 3) →
      (⟨1, 0, -5, 0⟩ : RawFix).tagId ∈ tagKeys (filterFixes (sampleTimeline 3))) ∧
    (∀ l l' : List RawFix, l.Perm l' →
      l.Pairwise (fun a b => a.timestamp ≠ b.timestamp) →
      calculateRollingAverages l = calculateRollingAverages l') :=
  claim6_grouping_and_sorting (sampleTimeline 3) 1 ⟨1, 0, -5, 0⟩

/-- Counterexample to C6 as stated: with a tied timestamp inside one group,
the stable sort preserves input order, and permuting the two tied fixes
changes the first emitted average.  So the output is not independent of the
input order within a group. -/
theorem claim6_counterexample :
    List.Perm
      [(⟨1, 0, -7, 0⟩ : RawFix), ⟨1, 1, -7, 0⟩, ⟨1, 2, -7, 0⟩, ⟨1, 3, -7, 0⟩,
       ⟨1, 4, -7, 0⟩, ⟨1, 5, -7, 0⟩, ⟨1, 6, -10, 0⟩, ⟨1, 6, -20, 0⟩]
      [(⟨1, 0, -7, 0⟩ : RawFix), ⟨1, 1, -7, 0⟩, ⟨1, 2, -7, 0⟩, ⟨1, 3, -7, 0⟩,
       ⟨1, 4, -7, 0⟩, ⟨1, 5, -7, 0⟩, ⟨1, 6, -20, 0⟩, ⟨1, 6, -10, 0⟩] ∧
    ((calculateRollingAverages
      [(⟨1, 0, -7, 0⟩ : RawFix), ⟨1, 1, -7, 0⟩, ⟨1, 2, -7, 0⟩, ⟨1, 3, -7, 0⟩,
       ⟨1, 4, -7, 0⟩, ⟨1, 5, -7, 0⟩, ⟨1, 6, -10, 0⟩, ⟨1, 6, -20, 0⟩]).getD 0 default).latitude
      ≠ ((calculateRollingAverages
      [(⟨1, 0, -7, 0⟩ : RawFix), ⟨1, 1, -7, 0⟩, ⟨1, 2, -7, 0⟩, ⟨1, 3, -7, 0⟩,
       ⟨1, 4, -7, 0⟩, ⟨1, 5, -7, 0⟩, ⟨1, 6, -20, 0⟩, ⟨1, 6, -10, 0⟩]).getD 0 default).latitude := by
  constructor
  · exact List.Perm.append_left
      ([⟨1, 0, -7, 0⟩, ⟨1, 1, -7, 0⟩, ⟨1, 2, -7, 0⟩,
        ⟨1, 3, -7, 0⟩, ⟨1, 4, -7, 0⟩, ⟨1, 5, -7, 0⟩] : List RawFix)
      (List.Perm.swap (⟨1, 6, -20, 0⟩ : RawFix) ⟨1, 6, -10, 0⟩ [])
  · have hsA : List.Sorted tsLE
        [(⟨1, 0, -7, 0⟩ : RawFix), ⟨1, 1, -7, 0⟩, ⟨1, 2, -7, 0⟩, ⟨1, 3, -7, 0⟩,
         ⟨1, 4, -7, 0⟩, ⟨1, 5, -7, 0⟩, ⟨1, 6, -10, 0⟩, ⟨1, 6, -20, 0⟩] := by
      simp [List.Sorted, List.pairwise_cons, List.forall_mem_cons, tsLE]
    have hsB : List.Sorted tsLE
        [(⟨1, 0, -7, 0⟩ : RawFix), ⟨1, 1, -7, 0⟩, ⟨1, 2, -7, 0⟩, ⟨1, 3, -7, 0⟩,
         ⟨1, 4, -7, 0⟩, ⟨1, 5, -7, 0⟩, ⟨1, 6, -20, 0⟩, ⟨1, 6, -10, 0⟩] := by
      simp [List.Sorted, List.pairwise_cons, List.forall_mem_cons, tsLE]
    rw [cRA_getD _ _ (by rw [cRA_length]; decide), hsA.insertionSort_eq,
      cRA_getD _ _ (by rw [cRA_length]; decide), hsB.insertionSort_eq]
    simp [windowRecord, toFixed6]
    norm_num [round_eq]

/-- A left fold of latitude additions starting from a nonpositive value
over fixes with negative latitudes stays nonpositive. -/
theorem foldl_latitude_nonpos (ws : List RawFix) (init : ℚ) (hinit : init ≤ 0)
    (h : ∀ p ∈ ws, p.latitude < 0) :
    ws.foldl (fun sum point => sum + point.latitude) init ≤ 0 := by
  induction ws generalizing init with
  | nil => simpa using hinit
  | cons a l ih =>
    simp only [List.foldl_cons]
    refine ih _ ?_ (fun p hp => h p (List.mem_cons_of_mem a hp))
    have ha := h a (List.mem_cons_self a l)
    linarith

/-- Rounding to six decimal places preserves nonpositivity. -/
theorem toFixed6_nonpos {x : ℚ} (hx : x ≤ 0) : toFixed6 x ≤ 0 := by
  rw [toFixed6]
  have h1 : x * 1000000 ≤ 0 := by linarith
  have h2 : round (x * 1000000) ≤ round (0 : ℚ) := by
    rw [round_eq, round_eq]
    exact Int.floor_le_floor (by linarith)
  rw [round_zero] at h2
  have h3 : ((round (x * 1000000) : ℤ) : ℚ) ≤ 0 := by exact_mod_cast h2
  have h4 : (0 : ℚ) ≤ 1000000 := by norm_num
  exact div_nonpos_iff.mpr (Or.inr ⟨h3, h4⟩)

/-- C10 (amended): every record the pipeline outputs has nonpositive
latitude: the filter admits only negative latitudes, a mean of negatives is
negative, and rounding a nonpositive rational to six decimal places keeps
it nonpositive.  (Strict negativity can be lost to rounding; see the
counterexample.) -/
theorem claim10_output_latitude_nonpos (raw : List RawFix) (r : AveragedFix)
    (hr : r ∈ processData raw) : r.latitude ≤ 0 := by
  rw [processData] at hr
  rw [List.mem_insertionSort, List.mem_flatMap] at hr
  obtain ⟨t, _, hrt⟩ := hr
  have hall : ∀ p ∈ groupOf (filterFixes raw) t, p.latitude < 0 := by
    intro p hp
    have hpf : p ∈ filterFixes raw := (List.mem_filter.mp hp).1
    have := (List.mem_filter.mp hpf).2
    simpa using this
  revert hrt
  generalize groupOf (filterFixes raw) t = g at hall
  intro hrt
  rw [calculateRollingAverages] at hrt
  split at hrt
  · simp at hrt
  · simp only [List.mem_map] at hrt
    obtain ⟨i, _, rfl⟩ := hrt
    have hmem : ∀ p ∈ ((g.insertionSort tsLE).drop (i - 6)).take (i + 1 - (i - 6)),
        p.latitude < 0 := fun p hp =>
      hall p ((List.mem_insertionSort tsLE).mp
        (List.mem_of_mem_drop (List.mem_of_mem_take hp)))
    show (windowRecord (g.insertionSort tsLE) i).latitude ≤ 0
    rw [windowRecord]
    refine toFixed6_nonpos (div_nonpos_iff.mpr (Or.inr ⟨?_, ?_⟩))
    · exact foldl_latitude_nonpos _ 0 le_rfl hmem
    · exact Nat.cast_nonneg _

/-- A seven-fix literal timeline of one tag for concrete evaluations. -/
def sampleFixes7 : List RawFix :=
  [⟨1, 0, -5, 0⟩, ⟨1, 1, -5, 0⟩, ⟨1, 2, -5, 0⟩, ⟨1, 3, -5, 0⟩,
   ⟨1, 4, -5, 0⟩, ⟨1, 5, -5, 0⟩, ⟨1, 6, -5, 0⟩]

/-- The filter keeps all of the sample fixes. -/
theorem filterFixes_sampleFixes7 : filterFixes sampleFixes7 = sampleFixes7 := by
  norm_num [filterFixes, sampleFixes7]

/-- The sample fixes carry the single tag id 1. -/
theorem tagKeys_sampleFixes7 : tagKeys sampleFixes7 = [1] := by
  norm_num [tagKeys, sampleFixes7, List.dedup_cons_of_mem, List.dedup_cons_of_not_mem,
    List.insertionSort, List.orderedInsert]

/-- The single bucket of the sample fixes is the whole sample. -/
theorem groupOf_sampleFixes7 : groupOf sampleFixes7 1 = sampleFixes7 := by
  norm_num [groupOf, sampleFixes7]

/-- The pipeline output of the sample fixes has exactly one record. -/
theorem processData_sampleFixes7_length : (processData sampleFixes7).length = 1 := by
  simp only [processData, List.length_insertionSort]
  rw [filterFixes_sampleFixes7, tagKeys_sampleFixes7, List.flatMap_cons, List.flatMap_nil,
    groupOf_sampleFixes7, List.append_nil, cRA_length]
  decide

/-- Witness for C10 on the sample timeline. -/
theorem claim10_output_latitude_nonpos_witness :
    ((processData sampleFixes7).getD 0 default ∈ processData sampleFixes7) ∧
    ((processData sampleFixes7).getD 0 default).latitude ≤ 0 :=
  have hm : (processData sampleFixes7).getD 0 default ∈ processData sampleFixes7 :=
    getD_mem_of_lt (by rw [processData_sampleFixes7_length]; decide)
  ⟨hm, claim10_output_latitude_nonpos sampleFixes7 _ hm⟩

/-- Seven valid fixes whose latitude -0.0000004 is strictly negative but
rounds to zero at six decimal places. -/
def cex10 : List RawFix :=
  [⟨1, 0, -1/2500000, 0⟩, ⟨1, 1, -1/2500000, 0⟩, ⟨1, 2, -1/2500000, 0⟩,
   ⟨1, 3, -1/2500000, 0⟩, ⟨1, 4, -1/2500000, 0⟩, ⟨1, 5, -1/2500000, 0⟩,
   ⟨1, 6, -1/2500000, 0⟩]

/-- The filter keeps all of the counterexample fixes. -/
theorem filterFixes_cex10 : filterFixes cex10 = cex10 := by
  norm_num [filterFixes, cex10]

/-- The counterexample fixes carry the single tag id 1. -/
theorem tagKeys_cex10 : tagKeys cex10 = [1] := by
  norm_num [tagKeys, cex10, List.dedup_cons_of_mem, List.dedup_cons_of_not_mem,
    List.insertionSort, List.orderedInsert]

/-- The single bucket of the counterexample fixes is the whole list. -/
theorem groupOf_cex10 : groupOf cex10 1 = cex10 := by
  norm_num [groupOf, cex10]

/-- The counterexample list is already sorted by timestamp. -/
theorem sorted_cex10 : List.Sorted tsLE cex10 := by
  simp [List.Sorted, List.pairwise_cons, List.forall_mem_cons, tsLE, cex10]

/-- The pipeline emits exactly one record for the counterexample fixes. -/
theorem processData_cex10_length : (processData cex10).length = 1 := by
  simp only [processData, List.length_insertionSort]
  rw [filterFixes_cex10, tagKeys_cex10, List.flatMap_cons, List.flatMap_nil,
    groupOf_cex10, List.append_nil, cRA_length]
  decide

/-- The single record of the counterexample run has latitude exactly 0:
the mean -0.0000004 rounds to -0.000000. -/
theorem processData_cex10_latitude :
    ((processData cex10).getD 0 default).latitude = 0 := by
  have hlat0 : ((calculateRollingAverages cex10).getD 0 default).latitude = 0 := by
    rw [cRA_getD cex10 0 (by rw [cRA_length]; decide), sorted_cex10.insertionSort_eq]
    simp [windowRecord, toFixed6, cex10]
    norm_num [round_eq]
  simp only [processData]
  rw [filterFixes_cex10, tagKeys_cex10, List.flatMap_cons, List.flatMap_nil,
    groupOf_cex10, List.append_nil]
  obtain ⟨a, haeq⟩ := List.length_eq_one.mp
    (show (calculateRollingAverages cex10).length = 1 by rw [cRA_length]; decide)
  rw [haeq] at hlat0 ⊢
  simpa [List.insertionSort, List.orderedInsert] using hlat0

/-- Counterexample to C10 as stated: a pipeline run whose output contains a
record with latitude not strictly negative (it is exactly 0 after
rounding), although every input latitude passed the filter. -/
theorem claim10_counterexample :
    (processData cex10).length = 1 ∧ ¬ (∀ r ∈ processData cex10, r.latitude < 0) := by
  refine ⟨processData_cex10_length, fun hall => ?_⟩
  have hm : (processData cex10).getD 0 default ∈ processData cex10 :=
    getD_mem_of_lt (by rw [processData_cex10_length]; decide)
  have hlt := hall _ hm
  rw [processData_cex10_latitude] at hlt
  exact lt_irrefl 0 hlt

/-- C2 (amended): a record with a missing latitude is silently dropped by
the filter — the JavaScript comparison `undefined < 0` is false — and the
run proceeds, producing the aggregation of the records whose latitude is
present; no error is ever raised (the code contains no validation of
required fields). -/
theorem claim2_missing_latitude_dropped (raw : List RawRecord) :
    (∀ p ∈ raw, p.latitude = none → p ∉ jsFilterFixes raw) ∧
    jsProcessData raw = jsProcessData (raw.filter (fun p => p.latitude.isSome)) := by
  constructor
  · intro p _ hnone hmem
    have h2 := (List.mem_filter.mp hmem).2
    rw [hnone] at h2
    simp [jsLtZero] at h2
  · have hfilter : jsFilterFixes raw
        = jsFilterFixes (raw.filter (fun p => p.latitude.isSome)) := by
      rw [jsFilterFixes, jsFilterFixes, List.filter_filter]
      apply List.filter_congr
      intro p _
      cases hp : p.latitude <;> simp [jsLtZero, hp]
    simp only [jsProcessData]
    rw [hfilter]

/-- A record with a missing latitude field (and all other fields present). -/
def malRecord : RawRecord := ⟨some 1, some 999, none, some 0⟩

/-- Seven well-formed records matching `sampleFixes7`. -/
def goodRecords : List RawRecord :=
  [⟨some 1, some 0, some (-5), some 0⟩, ⟨some 1, some 1, some (-5), some 0⟩,
   ⟨some 1, some 2, some (-5), some 0⟩, ⟨some 1, some 3, some (-5), some 0⟩,
   ⟨some 1, some 4, some (-5), some 0⟩, ⟨some 1, some 5, some (-5), some 0⟩,
   ⟨some 1, some 6, some (-5), some 0⟩]

/-- Witness for C2 (amended) at a one-record input with missing latitude. -/
theorem claim2_missing_latitude_dropped_witness :
    (malRecord ∈ [malRecord] ∧ malRecord.latitude = none) ∧
    malRecord ∉ jsFilterFixes [malRecord] :=
  ⟨⟨List.mem_cons_self _ _, rfl⟩,
   (claim2_missing_latitude_dropped [malRecord]).1 malRecord (List.mem_cons_self _ _) rfl⟩

/-- Counterexample to C2 as stated: a run whose input contains a record
missing the required latitude field does not fail — the record is silently
dropped by the filter and the pipeline produces the aggregation of the
remaining well-formed records. -/
theorem claim2_counterexample :
    malRecord.latitude = none ∧
    malRecord ∈ (malRecord :: goodRecords) ∧
    malRecord ∉ jsFilterFixes (malRecord :: goodRecords) ∧
    jsProcessData (malRecord :: goodRecords) = jsProcessData goodRecords ∧
    (jsProcessData (malRecord :: goodRecords)).length = 1 := by
  have h0 : jsFilterFixes (malRecord :: goodRecords) = jsFilterFixes goodRecords := by
    simp [jsFilterFixes, List.filter_cons, malRecord, jsLtZero]
  have heq : jsProcessData (malRecord :: goodRecords) = jsProcessData goodRecords := by
    simp only [jsProcessData]
    rw [h0]
  have hmap : (jsFilterFixes goodRecords).map toFix = sampleFixes7 := by
    norm_num [jsFilterFixes, goodRecords, jsLtZero, toFix, sampleFixes7]
  have hlen : (jsProcessData goodRecords).length = 1 := by
    simp only [jsProcessData, List.length_insertionSort]
    rw [hmap, tagKeys_sampleFixes7, List.flatMap_cons, List.flatMap_nil,
      groupOf_sampleFixes7, List.append_nil, cRA_length]
    decide
  refine ⟨rfl, List.mem_cons_self _ _, ?_, heq, by rw [heq]; exact hlen⟩
  intro hmem
  have h2 := (List.mem_filter.mp hmem).2
  simp [malRecord, jsLtZero] at h2
